import Mathlib

/-!
Verification of the IBM System/370 address-translation case-study solver.

The development shallowly embeds the pure computational core of
src/solver.py: virtual-address decomposition, page-table-entry (PTE)
analysis, the LRU second-chance eviction loop over five queues, evicted
page identification, DASD disk-geometry (EPA) mapping, PTE rebuilding and
the full-exercise orchestrator.

Modelling conventions:
 - Python integers parsed from hex strings (int(s, 16)) are modelled as the
   already-parsed numbers; the purely presentational hex/binary string
   renderings of each result dict are omitted, keeping the canonical
   integer fields.
 - Python dicts that accumulate result fields become structures; fields
   that are only conditionally set become Option fields.
 - Exceptions (ValueError, KeyError, ZeroDivisionError, the two
   RuntimeError cases of the eviction loop) become an error type returned
   through Except.
 - Python floor division and modulo on possibly-negative operands are
   Int.fdiv and Int.fmod, which share Python's rounding convention.
-/

namespace Solver

/-- Page size in bytes: PAGE_SIZE = 2048. -/
def PAGE_SIZE : Nat := 2048

/-- Pages per segment: PAGES_PER_SEGMENT = 32. -/
def PAGES_PER_SEGMENT : Nat := 32

/-- The named DASD disk models of the DISK_MODELS catalog. -/
inductive DiskModel where
  | m3330
  | m3340
  | m3350
deriving Repr, DecidableEq

/-- A disk geometry: tracks per cylinder and slots (records) per track.
Held as integers because calculate_epa performs Python integer division on
them without validating sign. -/
structure DiskGeometry where
  tracks_per_cyl : Int
  slots_per_track : Int
deriving Repr, DecidableEq

/-- The DISK_MODELS catalog from solver.py. -/
def DISK_MODELS : DiskModel → DiskGeometry
  | .m3330 => ⟨19, 6⟩
  | .m3340 => ⟨12, 3⟩
  | .m3350 => ⟨30, 8⟩

/-- The Python exceptions the solver can raise, by raise site:
valueError is the explicit ValueError for a fault without queues;
keyError models a dict access to a missing key; zeroDivisionError models
Python division by zero; the last two are the RuntimeError cases of
run_lru_second_chance. -/
inductive PyError where
  | valueError
  | keyError
  | zeroDivisionError
  | noVictimAvailable
  | replacementLimitExceeded
deriving Repr, DecidableEq

/-- The integer fields of the dict returned by decompose_virtual_address.
value is int(dv_hex, 16); the hex/binary renderings are omitted. -/
structure DecomposedAddress where
  value : Nat
  S_dec : Nat
  P_dec : Nat
  d_dec : Nat
  num_abs_page : Nat
deriving Repr, DecidableEq

/-- decompose_virtual_address from solver.py: split a value into
S = bits 23..16, P = bits 15..11, d = bits 10..0, and derive the absolute
page number S*32+P. The source performs no range validation on the parsed
value and has no error path. -/
def decompose_virtual_address (value : Nat) : DecomposedAddress :=
  let s := (value >>> 16) &&& 0xFF
  let p := (value >>> 11) &&& 0x1F
  let d := value &&& 0x7FF
  { value := value
    S_dec := s
    P_dec := p
    d_dec := d
    num_abs_page := s * PAGES_PER_SEGMENT + p }

/-- calculate_num_cells from solver.py: rsize_kb // 2. -/
def calculate_num_cells (rsize_kb : Nat) : Nat :=
  rsize_kb / 2

/-- The integer fields of the dict returned by analyze_pte. cell_number
and dc are set only when bit I is 0 (no page fault). -/
structure PteAnalysis where
  pte_value : Nat
  bit_I : Nat
  is_page_fault : Bool
  cell_number : Option Nat
  dc : Option Nat
deriving Repr, DecidableEq

/-- analyze_pte from solver.py: bit I is (value >>> 2) &&& 1; when I = 0
the cell number is value >>> 3 and DC = cell * PAGE_SIZE. -/
def analyze_pte (value : Nat) : PteAnalysis :=
  let bit_i := (value >>> 2) &&& 1
  if bit_i = 1 then
    { pte_value := value, bit_I := bit_i, is_page_fault := true
      cell_number := none, dc := none }
  else
    let cell := value >>> 3
    { pte_value := value, bit_I := bit_i, is_page_fault := false
      cell_number := some cell, dc := some (cell * PAGE_SIZE) }

/-- The integer fields of the dict returned by calculate_real_address. -/
structure RealAddress where
  dc_dec : Nat
  dr_dec : Nat
deriving Repr, DecidableEq

/-- calculate_real_address from solver.py: DC = cell * PAGE_SIZE,
DR = DC + d. The d_bin argument of the source is the binary rendering of
the offset; it is modelled as the offset value itself. -/
def calculate_real_address (cell_number d : Nat) : RealAddress :=
  let dc := cell_number * PAGE_SIZE
  { dc_dec := dc, dr_dec := dc + d }

/-- A replacement-queue entry (cell, R bit, C bit). -/
abbrev QueueEntry := Nat × Nat × Nat

/-- The five LRU queues, in QUEUE_ORDER = [Q00, Q01, Q10, Q11, HQ].
A queue name missing from the Python input dict is filled with [] by the
setdefault loop of run_lru_second_chance, so the total structure is the
state after that normalisation. -/
structure Queues where
  Q00 : List QueueEntry
  Q01 : List QueueEntry
  Q10 : List QueueEntry
  Q11 : List QueueEntry
  HQ : List QueueEntry
deriving Repr, DecidableEq

/-- One entry of the steps log of run_lru_second_chance (the detail
strings are omitted; the numeric payload of each step dict is kept). -/
inductive LruStep where
  | rotate_queues
  | victim_found (cell r c : Nat)
  | second_chance (cell : Nat)
deriving Repr, DecidableEq

/-- The dict returned by run_lru_second_chance on success. -/
structure LruResult where
  victim_cell : Nat
  victim_R : Nat
  victim_C : Nat
  needs_pageout : Bool
  steps : List LruStep
  queues_before : Queues
  queues_after : Queues
deriving Repr, DecidableEq

/-- The iteration cap max_iterations = 1000 of run_lru_second_chance. -/
def MAX_ITERATIONS : Nat := 1000

/-- The body of the bounded for-loop of run_lru_second_chance, recursing
on the remaining fuel. qb is the deep copy queues_before taken on entry;
q is the working copy; steps the log so far. Exhausted fuel is the
RuntimeError raised after the loop. -/
def lruLoop (qb : Queues) : Nat → Queues → List LruStep → Except PyError LruResult
  | 0, _, _ => .error .replacementLimitExceeded
  | fuel + 1, q, steps =>
    match q.Q00 with
    | [] =>
      if q.Q01 = [] ∧ q.Q10 = [] ∧ q.Q11 = [] ∧ q.HQ = [] then
        .error .noVictimAvailable
      else
        lruLoop qb fuel ⟨q.Q01, q.Q10, q.Q11, q.HQ, []⟩ (steps ++ [.rotate_queues])
    | (cell, r, c) :: rest =>
      if r = 0 then
        .ok { victim_cell := cell
              victim_R := r
              victim_C := c
              needs_pageout := c == 1
              steps := steps ++ [.victim_found cell r c]
              queues_before := qb
              queues_after := { q with Q00 := rest } }
      else
        lruLoop qb fuel { q with Q00 := rest ++ [(cell, 0, c)] } (steps ++ [.second_chance cell])

/-- run_lru_second_chance from solver.py: deep-copies the input (the pure
embedding passes the input itself as queues_before) and runs the loop for
at most MAX_ITERATIONS iterations starting from an empty step log. -/
def run_lru_second_chance (queues : Queues) : Except PyError LruResult :=
  lruLoop queues MAX_ITERATIONS queues []

/-- The integer fields of the dict returned by identify_evicted_page. -/
structure EvictedPage where
  num_abs_page : Nat
  segment : Nat
  page : Nat
deriving Repr, DecidableEq

/-- identify_evicted_page from solver.py: the stored absolute page number
(bytes 4-5 of the PFTE, already parsed from hex) split into segment and
page by // 32 and % 32. -/
def identify_evicted_page (num_abs : Nat) : EvictedPage :=
  { num_abs_page := num_abs
    segment := num_abs / PAGES_PER_SEGMENT
    page := num_abs % PAGES_PER_SEGMENT }

/-- The dict returned by calculate_epa. -/
structure Epa where
  cylinder : Int
  track : Int
  slot : Int
  slots_per_cyl : Int
  slots_per_track : Int
deriving Repr, DecidableEq

/-- calculate_epa from solver.py. The source performs the divisions with
no validation: when tracks_per_cyl * slots_per_track = 0 the first //
raises ZeroDivisionError; otherwise slots_per_track is nonzero too and
every division succeeds, following Python floor-division semantics
(Int.fdiv / Int.fmod). -/
def calculate_epa (num_abs_page tracks_per_cyl slots_per_track : Int) :
    Except PyError Epa :=
  let slots_per_cyl := tracks_per_cyl * slots_per_track
  if slots_per_cyl = 0 then
    .error .zeroDivisionError
  else
    let cylinder := Int.fdiv num_abs_page slots_per_cyl
    let remainder := Int.fmod num_abs_page slots_per_cyl
    let track := Int.fdiv remainder slots_per_track
    let slot := Int.fmod remainder slots_per_track
    .ok { cylinder := cylinder, track := track, slot := slot
          slots_per_cyl := slots_per_cyl, slots_per_track := slots_per_track }

/-- calculate_dc from solver.py: DC = cell * PAGE_SIZE (the decimal
field; renderings omitted). -/
def calculate_dc (cell_number : Nat) : Nat :=
  cell_number * PAGE_SIZE

/-- The integer fields of the dict returned by build_new_pte. -/
structure NewPte where
  cell_number : Nat
  bi_0 : Nat
  bi_1 : Nat
deriving Repr, DecidableEq

/-- build_new_pte from solver.py: mask the cell to 13 bits, then
BI(0) = (upper13 <<< 3) ||| 0b000 and BI(1) = (upper13 <<< 3) ||| 0b100. -/
def build_new_pte (cell_number : Nat) : NewPte :=
  let upper_13 := cell_number &&& 0x1FFF
  { cell_number := cell_number
    bi_0 := (upper_13 <<< 3) ||| 0b000
    bi_1 := (upper_13 <<< 3) ||| 0b100 }

/-- An EPA paired with the DC of the victim cell, as stored in the
page_out and page_in sub-dicts of the full result. -/
structure PageIO where
  epa : Epa
  dc : Nat
deriving Repr, DecidableEq

/-- The result dict of solve_full_exercise. Fields that the source sets
only on one branch are Option fields. -/
structure SolveResult where
  address : DecomposedAddress
  num_cells : Nat
  pte : PteAnalysis
  disk_model : DiskModel
  page_fault : Bool
  lru : Option LruResult
  evicted_page : Option EvictedPage
  page_out : Option PageIO
  page_in : Option PageIO
  new_pte : Option NewPte
  real_address : Option RealAddress
deriving Repr, DecidableEq

/-- solve_full_exercise from solver.py, the full orchestrator. dv and
pte_v are the parsed virtual-address and PTE values; queues and pfte are
the two optional fault-path inputs. The branch structure follows the
source: num_cells is computed before the fault test; a fault with no
queues raises ValueError; the evicted-page step and the page-out step run
only when pfte is provided; page-in, the new PTEs and the real address
always run on a fault. -/
def solve_full_exercise (dv pte_v rsize_kb : Nat) (disk_model : DiskModel)
    (queues : Option Queues) (pfte : Option Nat) : Except PyError SolveResult :=
  let disk := DISK_MODELS disk_model
  let addr := decompose_virtual_address dv
  let num_cells := calculate_num_cells rsize_kb
  let pte := analyze_pte pte_v
  if pte.is_page_fault = false then
    match pte.cell_number with
    | none => .error .keyError
    | some cell =>
      .ok { address := addr, num_cells := num_cells, pte := pte
            disk_model := disk_model, page_fault := false
            lru := none, evicted_page := none, page_out := none
            page_in := none, new_pte := none
            real_address := some (calculate_real_address cell addr.d_dec) }
  else
    match queues with
    | none => .error .valueError
    | some qs =>
      match run_lru_second_chance qs with
      | .error e => .error e
      | .ok lru =>
        let evRes : Except PyError (Option EvictedPage × Option PageIO) :=
          match pfte with
          | none => .ok (none, none)
          | some pf =>
            let ev := identify_evicted_page pf
            if lru.needs_pageout then
              match calculate_epa ev.num_abs_page disk.tracks_per_cyl disk.slots_per_track with
              | .error e => .error e
              | .ok epa_out => .ok (some ev, some ⟨epa_out, calculate_dc lru.victim_cell⟩)
            else
              .ok (some ev, none)
        match evRes with
        | .error e => .error e
        | .ok (evicted, page_out) =>
          match calculate_epa addr.num_abs_page disk.tracks_per_cyl disk.slots_per_track with
          | .error e => .error e
          | .ok epa_in =>
            .ok { address := addr, num_cells := num_cells, pte := pte
                  disk_model := disk_model, page_fault := true
                  lru := some lru, evicted_page := evicted
                  page_out := page_out
                  page_in := some ⟨epa_in, calculate_dc lru.victim_cell⟩
                  new_pte := some (build_new_pte lru.victim_cell)
                  real_address := some (calculate_real_address lru.victim_cell addr.d_dec) }

end Solver

namespace Solver

/-- Helper: masking with 0x1FFF is reduction mod 2^13. -/
theorem and_mask_8191 (n : Nat) : n &&& 0x1FFF = n % 2 ^ 13 := by
  rw [show (0x1FFF : Nat) = 2 ^ 13 - 1 from rfl, Nat.and_pow_two_sub_one_eq_mod]

/-- Helper: bit 2 of (x <<< 3) ||| 4 is set, i.e. the value is odd after
dividing by 4. -/
theorem bit2_of_shiftLeft3_or_four (x : Nat) : (x <<< 3 ||| 4) / 2 ^ 2 % 2 = 1 := by
  have t4 : Nat.testBit 4 2 = true := by decide
  have h : Nat.testBit (x <<< 3 ||| 4) 2 = true := by
    rw [Nat.testBit_or, Nat.testBit_shiftLeft, t4]
    simp
  rw [Nat.testBit_to_div_mod] at h
  exact of_decide_eq_true h

/-- C3: for every 24-bit value v, decompose_virtual_address splits v into
segment (8 bits), page (5 bits) and offset (11 bits) with
segment*2^16 + page*2^11 + offset = v, and the derived absolute page
number segment*32 + page lies in [0, 8191]. -/
theorem decompose_invertible_and_abs_page_bounded (v : Nat) (h : v < 2 ^ 24) :
    (decompose_virtual_address v).S_dec * 2 ^ 16
      + (decompose_virtual_address v).P_dec * 2 ^ 11
      + (decompose_virtual_address v).d_dec = v ∧
    (decompose_virtual_address v).num_abs_page ≤ 8191 := by
  unfold decompose_virtual_address PAGES_PER_SEGMENT
  simp only [Nat.shiftRight_eq_div_pow]
  rw [show (0xFF : Nat) = 2 ^ 8 - 1 from rfl, show (0x1F : Nat) = 2 ^ 5 - 1 from rfl,
    show (0x7FF : Nat) = 2 ^ 11 - 1 from rfl, Nat.and_pow_two_sub_one_eq_mod,
    Nat.and_pow_two_sub_one_eq_mod, Nat.and_pow_two_sub_one_eq_mod]
  constructor <;> omega

/-- C3 witness: the invertibility theorem instantiated at the worked
example address 0x03FFA3. -/
theorem decompose_invertible_witness :
    (0x03FFA3 : Nat) < 2 ^ 24 ∧
    ((decompose_virtual_address 0x03FFA3).S_dec * 2 ^ 16
      + (decompose_virtual_address 0x03FFA3).P_dec * 2 ^ 11
      + (decompose_virtual_address 0x03FFA3).d_dec = 0x03FFA3 ∧
    (decompose_virtual_address 0x03FFA3).num_abs_page ≤ 8191) :=
  ⟨by norm_num, decompose_invertible_and_abs_page_bounded 0x03FFA3 (by norm_num)⟩

/-- C4: for every frame number f in [0, 8191], analyzing the builder's
incoming entry BI(0) yields frame f and no fault, and analyzing the
outgoing entry BI(1) yields a fault. -/
theorem analyze_build_new_pte_roundtrip (f : Nat) (h : f ≤ 8191) :
    (analyze_pte (build_new_pte f).bi_0).cell_number = some f ∧
    (analyze_pte (build_new_pte f).bi_0).is_page_fault = false ∧
    (analyze_pte (build_new_pte f).bi_1).is_page_fault = true := by
  have hmask : f &&& 0x1FFF = f := by
    rw [and_mask_8191]
    exact Nat.mod_eq_of_lt (by omega)
  have hb0 : (build_new_pte f).bi_0 = f * 8 := by
    simp only [build_new_pte, hmask, Nat.or_zero, Nat.shiftLeft_eq]
  have hb1eq : (build_new_pte f).bi_1 = f <<< 3 ||| 4 := by
    simp only [build_new_pte, hmask]
  have hbit0 : ((f * 8) >>> 2) % 2 = 0 := by
    rw [Nat.shiftRight_eq_div_pow]
    omega
  have hbit1 : ((f <<< 3 ||| 4) >>> 2) % 2 = 1 := by
    rw [Nat.shiftRight_eq_div_pow]
    exact bit2_of_shiftLeft3_or_four f
  have hcell : (f * 8) >>> 3 = f := by
    rw [Nat.shiftRight_eq_div_pow]
    omega
  have h0 : analyze_pte (f * 8) =
      { pte_value := f * 8, bit_I := 0, is_page_fault := false
        cell_number := some f, dc := some (f * PAGE_SIZE) } := by
    simp [analyze_pte, hbit0, hcell]
  have h1 : analyze_pte (f <<< 3 ||| 4) =
      { pte_value := f <<< 3 ||| 4, bit_I := 1, is_page_fault := true
        cell_number := none, dc := none } := by
    simp [analyze_pte, hbit1]
  refine ⟨?_, ?_, ?_⟩
  · rw [hb0, h0]
  · rw [hb0, h0]
  · rw [hb1eq, h1]

/-- C4 witness: the round-trip theorem instantiated at frame 189. -/
theorem analyze_build_new_pte_roundtrip_witness :
    (189 : Nat) ≤ 8191 ∧
    ((analyze_pte (build_new_pte 189).bi_0).cell_number = some 189 ∧
    (analyze_pte (build_new_pte 189).bi_0).is_page_fault = false ∧
    (analyze_pte (build_new_pte 189).bi_1).is_page_fault = true) :=
  ⟨by norm_num, analyze_build_new_pte_roundtrip 189 (by norm_num)⟩

end Solver

namespace Solver

/-- C7 counterexample: with tracks_per_cyl = -1 (≤ 0) the disk-geometry
mapping does not fail with any error: it computes a result by Python
floor division, so the claimed InvalidInput rejection does not exist. -/
theorem calculate_epa_accepts_nonpositive_geometry :
    calculate_epa 5 (-1) 1 =
      .ok { cylinder := -5, track := 0, slot := 0
            slots_per_cyl := -1, slots_per_track := 1 } := rfl

/-- C7 (amended): calculate_epa performs no geometry validation. When
tracks_per_cyl * slots_per_track = 0 the first division raises
ZeroDivisionError (not an InvalidInput); otherwise — including negative
factors — it returns a result, and that result satisfies the mapping
identity cylinder*slots_per_cyl + track*slots_per_track + slot = page. -/
theorem calculate_epa_no_geometry_validation (n t s : Int) :
    (t * s = 0 → calculate_epa n t s = .error .zeroDivisionError) ∧
    (t * s ≠ 0 → ∃ e, calculate_epa n t s = .ok e ∧
      e.cylinder * e.slots_per_cyl + e.track * e.slots_per_track + e.slot = n) := by
  constructor
  · intro h0
    simp [calculate_epa, h0]
  · intro h0
    have hs : s ≠ 0 := by
      intro hs0
      exact h0 (by rw [hs0, mul_zero])
    refine ⟨{ cylinder := Int.fdiv n (t * s), track := Int.fdiv (Int.fmod n (t * s)) s
              slot := Int.fmod (Int.fmod n (t * s)) s, slots_per_cyl := t * s
              slots_per_track := s }, ?_, ?_⟩
    · simp [calculate_epa, h0]
    · have h1 : Int.fdiv n (t * s) * (t * s) + Int.fmod n (t * s) = n := by
        rw [mul_comm]
        exact Int.fdiv_add_fmod n (t * s)
      have h2 : Int.fdiv (Int.fmod n (t * s)) s * s + Int.fmod (Int.fmod n (t * s)) s
          = Int.fmod n (t * s) := by
        rw [mul_comm]
        exact Int.fdiv_add_fmod (Int.fmod n (t * s)) s
      dsimp only
      linarith

/-- C7 witness: the amended theorem applied at geometry (0, 1), which
raises ZeroDivisionError, and at geometry (-1, 1), which computes. -/
theorem calculate_epa_no_geometry_validation_witness :
    calculate_epa 5 0 1 = .error .zeroDivisionError ∧
    (∃ e, calculate_epa 5 (-1) 1 = .ok e ∧
      e.cylinder * e.slots_per_cyl + e.track * e.slots_per_track + e.slot = 5) :=
  ⟨(calculate_epa_no_geometry_validation 5 0 1).1 (by decide),
   (calculate_epa_no_geometry_validation 5 (-1) 1).2 (by decide)⟩

/-- C8 counterexample: the out-of-range value 2^24 is not rejected by
decompose_virtual_address; it is decomposed into fields (the embedding is
total because the source has no validation and no error path). -/
theorem decompose_out_of_range_returns_fields :
    decompose_virtual_address (2 ^ 24) =
      { value := 2 ^ 24, S_dec := 0, P_dec := 0, d_dec := 0, num_abs_page := 0 } := rfl

/-- C8 (amended): decompose_virtual_address performs no 24-bit range
validation: every input value is decomposed into fields, and the derived
fields depend only on the value mod 2^24, so bits above bit 23 are
silently discarded (while the raw value field keeps the full input). -/
theorem decompose_no_range_validation (v : Nat) :
    (decompose_virtual_address v).value = v ∧
    (decompose_virtual_address v).S_dec = (decompose_virtual_address (v % 2 ^ 24)).S_dec ∧
    (decompose_virtual_address v).P_dec = (decompose_virtual_address (v % 2 ^ 24)).P_dec ∧
    (decompose_virtual_address v).d_dec = (decompose_virtual_address (v % 2 ^ 24)).d_dec ∧
    (decompose_virtual_address v).num_abs_page
      = (decompose_virtual_address (v % 2 ^ 24)).num_abs_page := by
  simp only [decompose_virtual_address, PAGES_PER_SEGMENT]
  simp only [Nat.shiftRight_eq_div_pow, show (0xFF : Nat) = 2 ^ 8 - 1 from rfl,
    show (0x1F : Nat) = 2 ^ 5 - 1 from rfl, show (0x7FF : Nat) = 2 ^ 11 - 1 from rfl,
    Nat.and_pow_two_sub_one_eq_mod]
  refine ⟨trivial, ?_, ?_, ?_, ?_⟩ <;> omega

end Solver

namespace Solver

/-- Helper: every run of the eviction loop ends in a victim with R = 0,
or in one of the two RuntimeError outcomes. By induction on the fuel. -/
theorem lruLoop_trichotomy (qb : Queues) :
    ∀ (fuel : Nat) (q : Queues) (steps : List LruStep),
      (∃ res, lruLoop qb fuel q steps = .ok res ∧ res.victim_R = 0) ∨
      lruLoop qb fuel q steps = .error .noVictimAvailable ∨
      lruLoop qb fuel q steps = .error .replacementLimitExceeded := by
  intro fuel
  induction fuel with
  | zero =>
    intro q steps
    right; right; rfl
  | succ n ih =>
    intro q steps
    rcases hq : q.Q00 with _ | ⟨⟨cell, r, c⟩, rest⟩
    · by_cases hall : q.Q01 = [] ∧ q.Q10 = [] ∧ q.Q11 = [] ∧ q.HQ = []
      · right; left
        simp only [lruLoop, hq]
        rw [if_pos hall]
      · have h := ih ⟨q.Q01, q.Q10, q.Q11, q.HQ, []⟩ (steps ++ [.rotate_queues])
        simp only [lruLoop, hq] at h ⊢
        rw [if_neg hall]
        exact h
    · by_cases hr : r = 0
      · subst hr
        left
        refine ⟨{ victim_cell := cell, victim_R := 0, victim_C := c, needs_pageout := c == 1
                  steps := steps ++ [.victim_found cell 0 c], queues_before := qb
                  queues_after := { q with Q00 := rest } }, ?_, rfl⟩
        simp [lruLoop, hq]
      · have h := ih { q with Q00 := rest ++ [(cell, 0, c)] } (steps ++ [.second_chance cell])
        simp only [lruLoop, hq] at h ⊢
        rw [if_neg hr]
        exact h

/-- C2: for every input queue set the evictor terminates with one of
three outcomes — a victim, whose R bit is always 0; the
NoVictimAvailable RuntimeError; or the ReplacementLimitExceeded
RuntimeError at the 1000-iteration cap — and when Q00 and every other
queue are empty it raises NoVictimAvailable. -/
theorem lru_second_chance_terminates (q : Queues) :
    ((∃ res, run_lru_second_chance q = .ok res ∧ res.victim_R = 0) ∨
      run_lru_second_chance q = .error .noVictimAvailable ∨
      run_lru_second_chance q = .error .replacementLimitExceeded) ∧
    (q.Q00 = [] ∧ q.Q01 = [] ∧ q.Q10 = [] ∧ q.Q11 = [] ∧ q.HQ = [] →
      run_lru_second_chance q = .error .noVictimAvailable) := by
  constructor
  · exact lruLoop_trichotomy q MAX_ITERATIONS q []
  · intro h
    obtain ⟨h0, hrest⟩ := h
    have step : ∀ fuel : Nat, lruLoop q (fuel + 1) q [] = .error .noVictimAvailable := by
      intro fuel
      simp only [lruLoop, h0]
      rw [if_pos hrest]
    rw [run_lru_second_chance, show MAX_ITERATIONS = 999 + 1 from rfl]
    exact step 999

/-- C2 witness: with every queue empty the evictor raises
NoVictimAvailable. -/
theorem lru_second_chance_terminates_witness :
    run_lru_second_chance ⟨[], [], [], [], []⟩ = .error .noVictimAvailable :=
  (lru_second_chance_terminates ⟨[], [], [], [], []⟩).2 ⟨rfl, rfl, rfl, rfl, rfl⟩

/-- C5: whenever the loop finds Q00 empty and some other queue non-empty
it performs exactly one rotation — new Q00 = old Q01, new Q01 = old Q10,
new Q10 = old Q11, new Q11 = old HQ, new HQ = [] — records a
rotate_queues step and resumes on the rotated state; and on the input
Q00 = [], Q01 = [(5,0,0)], rest empty, the run records exactly one
rotate_queues step and returns cell 5 with R = 0. -/
theorem lru_rotation_step_and_scenario :
    (∀ (qb : Queues) (fuel : Nat) (q : Queues) (steps : List LruStep),
      q.Q00 = [] → ¬(q.Q01 = [] ∧ q.Q10 = [] ∧ q.Q11 = [] ∧ q.HQ = []) →
      lruLoop qb (fuel + 1) q steps =
        lruLoop qb fuel ⟨q.Q01, q.Q10, q.Q11, q.HQ, []⟩ (steps ++ [.rotate_queues])) ∧
    run_lru_second_chance ⟨[], [(5, 0, 0)], [], [], []⟩ =
      .ok { victim_cell := 5, victim_R := 0, victim_C := 0, needs_pageout := false
            steps := [.rotate_queues, .victim_found 5 0 0]
            queues_before := ⟨[], [(5, 0, 0)], [], [], []⟩
            queues_after := ⟨[], [], [], [], []⟩ } := by
  constructor
  · intro qb fuel q steps h1 h2
    simp only [lruLoop, h1]
    rw [if_neg h2]
  · rfl

/-- C5 witness: the rotation equation applied to the concrete state
Q00 = [], Q01 = [(5,0,0)]. -/
theorem lru_rotation_step_witness :
    lruLoop ⟨[], [], [], [], []⟩ (0 + 1) ⟨[], [(5, 0, 0)], [], [], []⟩ [] =
      lruLoop ⟨[], [], [], [], []⟩ 0 ⟨[(5, 0, 0)], [], [], [], []⟩ ([] ++ [.rotate_queues]) :=
  lru_rotation_step_and_scenario.1 ⟨[], [], [], [], []⟩ 0
    ⟨[], [(5, 0, 0)], [], [], []⟩ [] rfl (by decide)

/-- C6 counterexample: on Q00 = [], Q01 = [(1,0,0)], HQ = [(7,1,1)], the
run rotates once and ends with the former HQ entry (7,1,1) still present
in the working queue set — it sits in Q11 of queues_after — so rotation
does not discard the old HQ contents. -/
theorem rotation_keeps_old_HQ_contents :
    run_lru_second_chance ⟨[], [(1, 0, 0)], [], [], [(7, 1, 1)]⟩ =
      .ok { victim_cell := 1, victim_R := 0, victim_C := 0, needs_pageout := false
            steps := [.rotate_queues, .victim_found 1 0 0]
            queues_before := ⟨[], [(1, 0, 0)], [], [], [(7, 1, 1)]⟩
            queues_after := ⟨[], [], [], [(7, 1, 1)], []⟩ } := rfl

/-- C6 (amended): a rotate-tiers step empties HQ but preserves its former
contents one tier down: the rotated state has Q11 = old HQ, so every entry
that was in HQ immediately before the rotation is still present in the
queue set (in Q11) immediately after it. -/
theorem rotation_moves_HQ_to_Q11 (qb : Queues) (fuel : Nat) (q : Queues)
    (steps : List LruStep) (h1 : q.Q00 = [])
    (h2 : ¬(q.Q01 = [] ∧ q.Q10 = [] ∧ q.Q11 = [] ∧ q.HQ = [])) :
    ∃ q', lruLoop qb (fuel + 1) q steps = lruLoop qb fuel q' (steps ++ [.rotate_queues]) ∧
      q'.Q11 = q.HQ ∧ q'.HQ = [] ∧ ∀ e ∈ q.HQ, e ∈ q'.Q11 := by
  refine ⟨⟨q.Q01, q.Q10, q.Q11, q.HQ, []⟩, ?_, rfl, rfl, ?_⟩
  · simp only [lruLoop, h1]
    rw [if_neg h2]
  · intro e he
    exact he

/-- C6 witness: the amended rotation property at the counterexample
state, whose HQ holds the entry (7,1,1). -/
theorem rotation_moves_HQ_to_Q11_witness :
    ∃ q', lruLoop ⟨[], [], [], [], []⟩ (0 + 1) ⟨[], [(1, 0, 0)], [], [], [(7, 1, 1)]⟩ [] =
        lruLoop ⟨[], [], [], [], []⟩ 0 q' ([] ++ [.rotate_queues]) ∧
      q'.Q11 = [(7, 1, 1)] ∧ q'.HQ = [] ∧
      ∀ e ∈ ([(7, 1, 1)] : List QueueEntry), e ∈ q'.Q11 :=
  rotation_moves_HQ_to_Q11 ⟨[], [], [], [], []⟩ 0
    ⟨[], [(1, 0, 0)], [], [], [(7, 1, 1)]⟩ [] rfl (by decide)

/-- Helper: a successful eviction run reports as queues_before exactly
the snapshot taken on entry. By induction on the fuel. -/
theorem lruLoop_queues_before (qb : Queues) :
    ∀ (fuel : Nat) (q : Queues) (steps : List LruStep) (res : LruResult),
      lruLoop qb fuel q steps = .ok res → res.queues_before = qb := by
  intro fuel
  induction fuel with
  | zero =>
    intro q steps res h
    exact Except.noConfusion h
  | succ n ih =>
    intro q steps res h
    rcases hq : q.Q00 with _ | ⟨⟨cell, r, c⟩, rest⟩
    · simp only [lruLoop, hq] at h
      by_cases hall : q.Q01 = [] ∧ q.Q10 = [] ∧ q.Q11 = [] ∧ q.HQ = []
      · rw [if_pos hall] at h
        exact Except.noConfusion h
      · rw [if_neg hall] at h
        exact ih _ _ _ h
    · simp only [lruLoop, hq] at h
      by_cases hr : r = 0
      · rw [if_pos hr] at h
        injection h with h
        subst h
        rfl
      · rw [if_neg hr] at h
        exact ih _ _ _ h

/-- C9: the evictor never mutates the caller-supplied queue mapping. In
this pure embedding the input is untouched by construction (the Python
code guarantees it by deep-copying on entry, solver.py lines 207-208),
and the observable half of the contract is proved: on success the
queues_before field of the result equals the input queue state. -/
theorem lru_preserves_caller_queues (q : Queues) (res : LruResult)
    (h : run_lru_second_chance q = .ok res) : res.queues_before = q :=
  lruLoop_queues_before q MAX_ITERATIONS q [] res h

/-- The successful result of a concrete eviction run with a second-chance
step, used to witness the queues_before contract. -/
def lruSecondChanceRunResult : LruResult :=
  match run_lru_second_chance ⟨[(2, 1, 0), (3, 0, 1)], [], [], [], []⟩ with
  | .ok res => res
  | .error _ =>
    { victim_cell := 0, victim_R := 0, victim_C := 0, needs_pageout := false
      steps := [], queues_before := ⟨[], [], [], [], []⟩
      queues_after := ⟨[], [], [], [], []⟩ }

/-- C9 witness: the preservation theorem applied to a concrete run. -/
theorem lru_preserves_caller_queues_witness :
    lruSecondChanceRunResult.queues_before = ⟨[(2, 1, 0), (3, 0, 1)], [], [], [], []⟩ :=
  lru_preserves_caller_queues ⟨[(2, 1, 0), (3, 0, 1)], [], [], [], []⟩
    lruSecondChanceRunResult rfl

end Solver

namespace Solver

/-- A fault translation (PTE 0x05EC has bit 2 set) called with a queue
snapshot whose victim has C = 1, but with no pfte_bytes_45_hex value. -/
def solveFaultNoPfte : Except PyError SolveResult :=
  solve_full_exercise 0x03FFA3 0x05EC 100 .m3330 (some ⟨[(9, 0, 1)], [], [], [], []⟩) none

/-- C1 counterexample: with the locator value (pfte_bytes_45_hex) absent,
the faulting translation does not fail with any InvalidInput-class error:
it completes, silently skipping the evicted-page identification and the
page-out computation — even though the chosen victim has C = 1, so a
page-out would have been required. -/
theorem solve_completes_without_pfte :
    solveFaultNoPfte.map SolveResult.page_fault = .ok true ∧
    solveFaultNoPfte.map SolveResult.evicted_page = .ok none ∧
    solveFaultNoPfte.map SolveResult.page_out = .ok none ∧
    solveFaultNoPfte.map SolveResult.lru =
      .ok (some { victim_cell := 9, victim_R := 0, victim_C := 1, needs_pageout := true
                  steps := [.victim_found 9 0 1]
                  queues_before := ⟨[(9, 0, 1)], [], [], [], []⟩
                  queues_after := ⟨[], [], [], [], []⟩ }) :=
  ⟨rfl, rfl, rfl, rfl⟩

/-- C1 (amended): on a fault, an absent queue snapshot raises the
ValueError (the InvalidInput-class error), but an absent locator value
does not: the translation then completes with the evicted-page and
page-out steps skipped. -/
theorem solve_fault_input_contract (dv pv rs : Nat) (m : DiskModel)
    (queues : Option Queues) (pfte : Option Nat)
    (hf : (analyze_pte pv).is_page_fault = true) :
    (queues = none → solve_full_exercise dv pv rs m queues pfte = .error .valueError) ∧
    (pfte = none → ∀ r, solve_full_exercise dv pv rs m queues pfte = .ok r →
      r.page_fault = true ∧ r.evicted_page = none ∧ r.page_out = none) := by
  constructor
  · intro hq
    subst hq
    simp [solve_full_exercise, hf]
  · intro hp r h
    subst hp
    rcases queues with _ | qs
    · simp [solve_full_exercise, hf] at h
    · simp only [solve_full_exercise, hf] at h
      repeat' split at h
      all_goals first
        | contradiction
        | exact Except.noConfusion h
        | (injection h with h; subst h; exact ⟨rfl, rfl, rfl⟩)

/-- C1 witness: the amended contract applied at the concrete faulting
input 0x05EC with queues absent. -/
theorem solve_fault_input_contract_witness :
    solve_full_exercise 0x03FFA3 0x05EC 100 .m3330 none none = .error .valueError :=
  (solve_fault_input_contract 0x03FFA3 0x05EC 100 .m3330 none none rfl).1 rfl

/-- C10: every successful translation result — fault or no fault —
carries num_cells = rsize_kb // 2, computed before the fault branch. -/
theorem solve_result_num_cells (dv pv rs : Nat) (m : DiskModel)
    (queues : Option Queues) (pfte : Option Nat) (r : SolveResult)
    (h : solve_full_exercise dv pv rs m queues pfte = .ok r) :
    r.num_cells = rs / 2 := by
  simp only [solve_full_exercise] at h
  repeat' split at h
  all_goals first
    | contradiction
    | exact Except.noConfusion h
    | (injection h with h; subst h; rfl)

/-- The successful result of the worked no-fault translation, used to
witness the num_cells property. -/
def solveNoFaultResult : SolveResult :=
  match solve_full_exercise 0x03FFA3 0x05E8 100 .m3330 none none with
  | .ok r => r
  | .error _ =>
    { address := decompose_virtual_address 0, num_cells := 0, pte := analyze_pte 0
      disk_model := .m3330, page_fault := false, lru := none, evicted_page := none
      page_out := none, page_in := none, new_pte := none, real_address := none }

/-- C10 witness: the num_cells theorem applied to the worked no-fault
translation with 100 KB of real memory. -/
theorem solve_result_num_cells_witness : solveNoFaultResult.num_cells = 50 :=
  solve_result_num_cells 0x03FFA3 0x05E8 100 .m3330 none none solveNoFaultResult rfl

end Solver
